import Mathlib

/-!
Verification of the deep-keel client core (query validation, submission,
result normalization, autocomplete, offline report generation).

The definitions below are shallow embeddings of the JavaScript source under
`client/src`.  JS numbers that arise from parsing user text are modelled as
rationals; a form field value is either the empty string, a non-empty string
whose parseFloat result is the given rational, or a non-empty string whose
parseFloat result is NaN.  The per-field error object is modelled as an
association list keyed by field name.
-/

/-- Abstraction of a JS form-field string value together with its
`parseFloat` meaning: `empty` is the string `''`; `num q` is a non-empty
string parsing to the number `q`; `nonnum s` is a non-empty string `s`
whose `parseFloat` is NaN. -/
inductive FieldValue where
  | empty : FieldValue
  | num : ℚ → FieldValue
  | nonnum : String → FieldValue
deriving DecidableEq

/-- The form state of `Upload.jsx` (`formData`): field name to value. -/
def FormData : Type := String → FieldValue

/-- The `fieldErrors` object: field name to error message, at most one
binding per key (maintained by `insertErr`). -/
def ErrMap : Type := List (String × String)

/-- Deleting a key, as in `delete updated[fieldName]` on a spread copy. -/
def eraseErr : ErrMap → String → ErrMap
  | [], _ => []
  | p :: t, f => if p.1 = f then eraseErr t f else p :: eraseErr t f

/-- Setting a key, as in `{ ...prev, [fieldName]: msg }`. -/
def insertErr (errs : ErrMap) (f : String) (msg : String) : ErrMap :=
  (f, msg) :: eraseErr errs f

/-- Reading a key of the error object. -/
def getErr : ErrMap → String → Option String
  | [], _ => none
  | p :: t, f => if p.1 = f then some p.2 else getErr t f

theorem getErr_eraseErr_self (errs : ErrMap) (f : String) :
    getErr (eraseErr errs f) f = none := by
  induction errs with
  | nil => rfl
  | cons p t ih =>
    by_cases hpf : p.1 = f
    · simpa [eraseErr, hpf] using ih
    · simpa [eraseErr, getErr, hpf] using ih

theorem getErr_eraseErr_ne (errs : ErrMap) (f g : String) (h : g ≠ f) :
    getErr (eraseErr errs f) g = getErr errs g := by
  induction errs with
  | nil => rfl
  | cons p t ih =>
    have hfg : ¬ (f = g) := fun e => h e.symm
    by_cases hpf : p.1 = f
    · have hpg : ¬ (p.1 = g) := by
        intro hg
        exact h (hg ▸ hpf)
      simpa [eraseErr, getErr, hpf, hpg, hfg] using ih
    · by_cases hpg : p.1 = g
      · simp [eraseErr, getErr, hpf, hpg, h]
      · simpa [eraseErr, getErr, hpf, hpg] using ih

theorem getErr_insertErr_self (errs : ErrMap) (f msg : String) :
    getErr (insertErr errs f msg) f = some msg := by
  simp [getErr, insertErr]

theorem getErr_insertErr_ne (errs : ErrMap) (f msg g : String) (h : g ≠ f) :
    getErr (insertErr errs f msg) g = getErr errs g := by
  have hfg : ¬ ((f, msg).1 = g) := fun hfg => h hfg.symm
  simp only [insertErr, getErr, hfg, if_false]
  exact getErr_eraseErr_ne errs f g h

/-- The `rangeValidations` table of `validateField` (Upload.jsx:70-79).
`some (true, s)` means the entry is `{ max: s }` (the field is the `_min`
side); `some (false, s)` means `{ min: s }` (the field is the `_max` side). -/
def rangeValidations (fieldName : String) : Option (Bool × String) :=
  if fieldName = "length_metres_min" then some (true, "length_metres_max")
  else if fieldName = "length_metres_max" then some (false, "length_metres_min")
  else if fieldName = "beam_metres_min" then some (true, "beam_metres_max")
  else if fieldName = "beam_metres_max" then some (false, "beam_metres_min")
  else if fieldName = "draught_metres_min" then some (true, "draught_metres_max")
  else if fieldName = "draught_metres_max" then some (false, "draught_metres_min")
  else if fieldName = "speed_knots_min" then some (true, "speed_knots_max")
  else if fieldName = "speed_knots_max" then some (false, "speed_knots_min")
  else none

theorem rangeValidations_facts (f : String) (b : Bool) (s : String)
    (h : rangeValidations f = some (b, s)) :
    s ≠ f ∧ f ≠ "top_k" ∧ f ≠ "launch_year" ∧ f ≠ "commission_year" := by
  unfold rangeValidations at h
  split_ifs at h with h1 h2 h3 h4 h5 h6 h7 h8 <;>
    simp only [Option.some.injEq, Prod.mk.injEq] at h
  · obtain ⟨hb, hs⟩ := h; subst hs; subst h1; decide
  · obtain ⟨hb, hs⟩ := h; subst hs; subst h2; decide
  · obtain ⟨hb, hs⟩ := h; subst hs; subst h3; decide
  · obtain ⟨hb, hs⟩ := h; subst hs; subst h4; decide
  · obtain ⟨hb, hs⟩ := h; subst hs; subst h5; decide
  · obtain ⟨hb, hs⟩ := h; subst hs; subst h6; decide
  · obtain ⟨hb, hs⟩ := h; subst hs; subst h7; decide
  · obtain ⟨hb, hs⟩ := h; subst hs; subst h8; decide

/-- The tail of `validateField` after the range-pair block: the `top_k`
bound check (Upload.jsx:113-121) and the year bound check (124-132). -/
def postRange (fieldName : String) (numValue : ℚ) (errs : ErrMap) : ErrMap :=
  if fieldName = "top_k" then
    if numValue < 1 ∨ 10 < numValue then
      insertErr errs fieldName "Must be between 1 and 10"
    else errs
  else if fieldName = "launch_year" ∨ fieldName = "commission_year" then
    if numValue < 1800 ∨ 2050 < numValue then
      insertErr errs fieldName "Must be between 1800 and 2050"
    else errs
  else errs

/-- `validateField` (Upload.jsx:37-133), as a function from the current
error object to the updated one.  Empty values clear the field's error;
NaN gives `Invalid number`; negatives give `Must be 0 or greater`;
otherwise the error is cleared and the range-pair / top_k / year checks
may re-insert one. -/
def validateField (fieldName : String) (value : FieldValue) (formData : FormData)
    (errs : ErrMap) : ErrMap :=
  match value with
  | FieldValue.empty => eraseErr errs fieldName
  | FieldValue.nonnum _ => insertErr errs fieldName "Invalid number"
  | FieldValue.num numValue =>
    if numValue < 0 then
      insertErr errs fieldName "Must be 0 or greater"
    else
      let errs1 := eraseErr errs fieldName
      match rangeValidations fieldName with
      | some (true, sibName) =>
        match formData sibName with
        | FieldValue.num maxNum =>
          if maxNum < numValue then insertErr errs1 fieldName "Min cannot exceed Max"
          else postRange fieldName numValue errs1
        | _ => postRange fieldName numValue errs1
      | some (false, sibName) =>
        match formData sibName with
        | FieldValue.num minNum =>
          if numValue < minNum then insertErr errs1 fieldName "Max cannot be less than Min"
          else postRange fieldName numValue errs1
        | _ => postRange fieldName numValue errs1
      | none => postRange fieldName numValue errs1

theorem postRange_getErr_other (f : String) (q : ℚ) (errs : ErrMap) (g : String)
    (h : g ≠ f) : getErr (postRange f q errs) g = getErr errs g := by
  unfold postRange
  split_ifs <;> simp [getErr_insertErr_ne _ _ _ _ h]

/-- `validateField` touches only the edited field's entry of the error
object. -/
theorem validateField_getErr_other (f : String) (v : FieldValue) (form : FormData)
    (errs : ErrMap) (g : String) (h : g ≠ f) :
    getErr (validateField f v form errs) g = getErr errs g := by
  unfold validateField
  cases v with
  | empty => exact getErr_eraseErr_ne _ _ _ h
  | nonnum s => exact getErr_insertErr_ne _ _ _ _ h
  | num q =>
    by_cases h0 : q < 0
    · simp [h0, getErr_insertErr_ne _ _ _ _ h]
    · simp only [h0, if_false]
      have herase := getErr_eraseErr_ne errs f g h
      cases hrv : rangeValidations f with
      | none => simp [hrv, postRange_getErr_other _ _ _ _ h, herase]
      | some p =>
        obtain ⟨b, s⟩ := p
        cases b <;>
          cases hform : form s <;>
            simp [hrv, hform, postRange_getErr_other _ _ _ _ h, herase,
              getErr_insertErr_ne _ _ _ _ h] <;>
          split_ifs <;>
            simp [postRange_getErr_other _ _ _ _ h, herase,
              getErr_insertErr_ne _ _ _ _ h]

theorem postRange_of_range_field (f : String) (b : Bool) (s : String)
    (h : rangeValidations f = some (b, s)) (q : ℚ) (errs : ErrMap) :
    postRange f q errs = errs := by
  obtain ⟨-, h1, h2, h3⟩ := rangeValidations_facts f b s h
  simp [postRange, h1, h2, h3]

def emptyFormW : FormData := fun _ => FieldValue.empty

def wform1 : FormData := fun g =>
  if g = "length_metres_max" then FieldValue.num 3 else FieldValue.empty

def cform1 : FormData := fun g =>
  if g = "length_metres_max" then FieldValue.num (-10) else FieldValue.empty

/-- C1 counterexample: with both sides of the length pair populated with
numeric text (min = -5 just edited, max = -10) the pair violates
min ≤ max, yet the reported error message is `Must be 0 or greater`, not
`Min cannot exceed Max` as the claim states. -/
theorem validateField_range_pair_cex :
    cform1 "length_metres_max" = FieldValue.num (-10)
    ∧ ¬ ((-5 : ℚ) ≤ (-10 : ℚ))
    ∧ getErr (validateField "length_metres_min" (FieldValue.num (-5)) cform1 [])
        "length_metres_min" = some "Must be 0 or greater"
    ∧ getErr (validateField "length_metres_min" (FieldValue.num (-5)) cform1 [])
        "length_metres_min" ≠ some "Min cannot exceed Max" := by
  refine ⟨rfl, by norm_num, by decide, by decide⟩

/-- C1 (amended): for a paired range field with both sides populated with
numeric text, a `validateField` call on the just-edited side that violates
min ≤ max reports exactly one error, attached to that side — `Min cannot
exceed Max` when the min side was edited, `Max cannot be less than Min`
when the max side was edited — provided the edited value is non-negative
(a negative edited value reports `Must be 0 or greater` instead); and when
the sibling side is empty, no error is reported for the edited side and no
other field's entry is touched. -/
theorem validateField_range_pair_amended (f : String) (b : Bool) (sib : String)
    (hf : rangeValidations f = some (b, sib))
    (q : ℚ) (form : FormData) (errs : ErrMap) :
    (∀ qs : ℚ, form sib = FieldValue.num qs → 0 ≤ q →
      ((b = true → qs < q →
          getErr (validateField f (FieldValue.num q) form errs) f
            = some "Min cannot exceed Max")
        ∧ (b = false → q < qs →
          getErr (validateField f (FieldValue.num q) form errs) f
            = some "Max cannot be less than Min")))
    ∧ (q < 0 →
        getErr (validateField f (FieldValue.num q) form errs) f
          = some "Must be 0 or greater")
    ∧ (form sib = FieldValue.empty → 0 ≤ q →
        getErr (validateField f (FieldValue.num q) form errs) f = none)
    ∧ (∀ g, g ≠ f →
        getErr (validateField f (FieldValue.num q) form errs) g = getErr errs g) := by
  refine ⟨?_, ?_, ?_, ?_⟩
  · intro qs hform hq
    constructor
    · intro hb hlt
      subst hb
      simp only [validateField, hf, hform, not_lt.mpr hq, if_false]
      rw [if_pos hlt]
      exact getErr_insertErr_self _ _ _
    · intro hb hgt
      subst hb
      simp only [validateField, hf, hform, not_lt.mpr hq, if_false]
      rw [if_pos hgt]
      exact getErr_insertErr_self _ _ _
  · intro h0
    simp only [validateField, h0, if_true]
    exact getErr_insertErr_self _ _ _
  · intro hform hq
    cases b <;>
      simp only [validateField, hf, hform, not_lt.mpr hq, if_false] <;>
      rw [postRange_of_range_field f _ sib hf] <;>
      exact getErr_eraseErr_self errs f
  · intro g hg
    exact validateField_getErr_other f _ form errs g hg

/-- Witness for C1 (amended): editing the length min side to 5 with the
max side holding 3 reports `Min cannot exceed Max` on the min side. -/
theorem validateField_range_pair_amended_witness :
    getErr (validateField "length_metres_min" (FieldValue.num 5) wform1 [])
      "length_metres_min" = some "Min cannot exceed Max" :=
  ((validateField_range_pair_amended "length_metres_min" true "length_metres_max"
      rfl 5 wform1 []).1 3 rfl (by norm_num)).1 rfl (by norm_num)

/-- C3 counterexample: top_k = -1 is non-empty numeric text outside
[1, 10], and an error is reported, but its message is
`Must be 0 or greater`, not `Must be between 1 and 10` as the claim
states for every out-of-range value. -/
theorem validateField_top_k_cex :
    getErr (validateField "top_k" (FieldValue.num (-1)) emptyFormW []) "top_k"
      = some "Must be 0 or greater"
    ∧ getErr (validateField "top_k" (FieldValue.num (-1)) emptyFormW []) "top_k"
      ≠ some "Must be between 1 and 10"
    ∧ ((-1 : ℚ) < 1 ∨ 10 < (-1 : ℚ)) := by
  refine ⟨by decide, by decide, Or.inl (by norm_num)⟩

/-- C3 (amended): for every non-empty numeric value of top_k, validation
reports an error exactly when the value lies outside [1, 10]; the message
is `Must be between 1 and 10` when the value is non-negative and out of
range (a negative value reports `Must be 0 or greater`), and no error is
reported for any value inside [1, 10]. -/
theorem validateField_top_k_amended (q : ℚ) (form : FormData) (errs : ErrMap) :
    (getErr (validateField "top_k" (FieldValue.num q) form errs) "top_k" ≠ none
      ↔ (q < 1 ∨ 10 < q))
    ∧ (0 ≤ q → (q < 1 ∨ 10 < q) →
        getErr (validateField "top_k" (FieldValue.num q) form errs) "top_k"
          = some "Must be between 1 and 10")
    ∧ (q < 0 →
        getErr (validateField "top_k" (FieldValue.num q) form errs) "top_k"
          = some "Must be 0 or greater")
    ∧ (1 ≤ q → q ≤ 10 →
        getErr (validateField "top_k" (FieldValue.num q) form errs) "top_k" = none) := by
  have hrt : rangeValidations "top_k" = none := rfl
  have horange : 0 ≤ q → (q < 1 ∨ 10 < q) →
      getErr (validateField "top_k" (FieldValue.num q) form errs) "top_k"
        = some "Must be between 1 and 10" := by
    intro hq hout
    simp only [validateField, hrt, not_lt.mpr hq, if_false, postRange, if_true,
      eq_self_iff_true]
    rw [if_pos hout]
    exact getErr_insertErr_self _ _ _
  have hneg : q < 0 →
      getErr (validateField "top_k" (FieldValue.num q) form errs) "top_k"
        = some "Must be 0 or greater" := by
    intro h0
    simp only [validateField, h0, if_true]
    exact getErr_insertErr_self _ _ _
  have hin : 1 ≤ q → q ≤ 10 →
      getErr (validateField "top_k" (FieldValue.num q) form errs) "top_k" = none := by
    intro h1 h10
    have hq : ¬ (q < 0) := not_lt.mpr (le_trans zero_le_one h1)
    have hout : ¬ (q < 1 ∨ 10 < q) :=
      fun hc => hc.elim (fun hlt => absurd hlt (not_lt.mpr h1))
        (fun hgt => absurd hgt (not_lt.mpr h10))
    simp only [validateField, hrt, hq, if_false, postRange, if_true, eq_self_iff_true]
    rw [if_neg hout]
    exact getErr_eraseErr_self errs "top_k"
  refine ⟨?_, horange, hneg, hin⟩
  constructor
  · intro hne
    by_contra hout
    push_neg at hout
    exact hne (hin hout.1 hout.2)
  · intro hout
    rcases lt_or_le q 0 with h0 | h0
    · rw [hneg h0]; simp
    · rw [horange h0 hout]; simp

/-- Witness for C3 (amended): top_k = 15 reports
`Must be between 1 and 10`; top_k = 5 reports nothing. -/
theorem validateField_top_k_amended_witness :
    getErr (validateField "top_k" (FieldValue.num 15) emptyFormW []) "top_k"
      = some "Must be between 1 and 10"
    ∧ getErr (validateField "top_k" (FieldValue.num 5) emptyFormW []) "top_k" = none :=
  ⟨(validateField_top_k_amended 15 emptyFormW []).2.1 (by norm_num)
      (Or.inr (by norm_num)),
    (validateField_top_k_amended 5 emptyFormW []).2.2.2 (by norm_num) (by norm_num)⟩

/-- `validateField` reads the form only at the sibling named by the
`rangeValidations` table. -/
theorem validateField_form_congr (f : String) (v : FieldValue)
    (form1 form2 : FormData) (errs : ErrMap)
    (h : ∀ b s, rangeValidations f = some (b, s) → form1 s = form2 s) :
    validateField f v form1 errs = validateField f v form2 errs := by
  unfold validateField
  cases v with
  | empty => rfl
  | nonnum s => rfl
  | num q =>
    by_cases h0 : q < 0
    · simp [h0]
    · simp only [h0, if_false]
      cases hrv : rangeValidations f with
      | none => rfl
      | some p =>
        obtain ⟨b, s⟩ := p
        have hs := h b s hrv
        cases b <;> simp [hrv, hs]

/-- The `fieldsToValidate` list of `handleInputChange` (Upload.jsx:142-151). -/
def fieldsToValidate : List String :=
  ["length_metres_min", "length_metres_max",
   "beam_metres_min", "beam_metres_max",
   "draught_metres_min", "draught_metres_max",
   "speed_knots_min", "speed_knots_max",
   "launch_year", "commission_year",
   "top_k"]

/-- `setFormData(prev => ({ ...prev, [field]: value }))`. -/
def updateForm (form : FormData) (f : String) (v : FieldValue) : FormData :=
  fun g => if g = f then v else form g

/-- The upload page state relevant to validation: the form, the error
object, and the queue of validations scheduled with `setTimeout(.., 0)`.
Each queued entry records the edited field, the edited value, and the
form snapshot captured by the scheduled closure (the render in which the
handler ran, i.e. the form state from before this edit was applied). -/
structure UIState where
  formData : FormData
  fieldErrors : ErrMap
  pendingValidations : List (String × FieldValue × FormData)

/-- `handleInputChange` (Upload.jsx:135-156): apply the form update, and
for fields in `fieldsToValidate` schedule `validateField(field, value)`
one tick later; the scheduled closure captures the pre-update form. -/
def handleInputChange (field : String) (value : FieldValue) (st : UIState) : UIState :=
  { formData := updateForm st.formData field value
    fieldErrors := st.fieldErrors
    pendingValidations :=
      if field ∈ fieldsToValidate then
        st.pendingValidations ++ [(field, value, st.formData)]
      else st.pendingValidations }

/-- The event loop firing the oldest scheduled validation. -/
def runPendingValidation (st : UIState) : UIState :=
  match st.pendingValidations with
  | [] => st
  | (f, v, snap) :: rest =>
    { formData := st.formData
      fieldErrors := validateField f v snap st.fieldErrors
      pendingValidations := rest }

/-- C2: an edit to a range-pair or special field leaves the error object
untouched at update time, schedules exactly one validation, and when that
validation fires one tick later its result coincides with validating
against the post-update form — the cross-field check reads the sibling's
latest value, never a stale one. -/
theorem handleInputChange_deferred_validation (st : UIState) (f : String)
    (v : FieldValue) (hf : f ∈ fieldsToValidate)
    (hp : st.pendingValidations = []) :
    (handleInputChange f v st).fieldErrors = st.fieldErrors
    ∧ (handleInputChange f v st).pendingValidations = [(f, v, st.formData)]
    ∧ (runPendingValidation (handleInputChange f v st)).fieldErrors
        = validateField f v (handleInputChange f v st).formData st.fieldErrors := by
  have hsched : (handleInputChange f v st).pendingValidations = [(f, v, st.formData)] := by
    simp [handleInputChange, hf, hp]
  refine ⟨rfl, hsched, ?_⟩
  simp only [runPendingValidation, hsched]
  apply validateField_form_congr
  intro b s hrv
  have hsne := (rangeValidations_facts f b s hrv).1
  simp [handleInputChange, updateForm, hsne]

def uiState0 : UIState :=
  { formData := emptyFormW, fieldErrors := [], pendingValidations := [] }

/-- Witness for C2: an edit of the speed max field on the initial state. -/
theorem handleInputChange_deferred_validation_witness :
    (handleInputChange "speed_knots_max" (FieldValue.num 2) uiState0).fieldErrors
        = uiState0.fieldErrors
    ∧ (runPendingValidation
          (handleInputChange "speed_knots_max" (FieldValue.num 2) uiState0)).fieldErrors
        = validateField "speed_knots_max" (FieldValue.num 2)
            (handleInputChange "speed_knots_max" (FieldValue.num 2) uiState0).formData
            uiState0.fieldErrors :=
  ⟨(handleInputChange_deferred_validation uiState0 "speed_knots_max"
      (FieldValue.num 2) (by decide) rfl).1,
    (handleInputChange_deferred_validation uiState0 "speed_knots_max"
      (FieldValue.num 2) (by decide) rfl).2.2⟩

/-- Outcome of the pre-network phase of `handleSubmit` (Upload.jsx:158-198). -/
inductive SubmitOutcome where
  | rejectMissing : String → SubmitOutcome
  | rejectErrors : String → SubmitOutcome
  | proceed : FormData → SubmitOutcome

/-- The `requiredFields` object of `handleSubmit` (Upload.jsx:163-167). -/
def requiredFieldsOf (form : FormData) : List (String × FieldValue) :=
  [("Speed Min", form "speed_knots_min"),
   ("Speed Max", form "speed_knots_max"),
   ("Number of Matches", form "top_k")]

/-- JS `!value || value === ''` on a form-field value. -/
def isEmptyValue : FieldValue → Bool
  | FieldValue.empty => true
  | _ => false

/-- The `missingFields` computation of `handleSubmit` (Upload.jsx:169-171). -/
def missingFieldLabels (form : FormData) : List String :=
  ((requiredFieldsOf form).filter (fun p => isEmptyValue p.2)).map (fun p => p.1)

/-- The two rejection gates of `handleSubmit` before any network call
(Upload.jsx:173-182); `proceed` corresponds to reaching the `fetch`. -/
def handleSubmitGate (form : FormData) (fieldErrors : ErrMap) : SubmitOutcome :=
  if (missingFieldLabels form).length > 0 then
    SubmitOutcome.rejectMissing
      ("Please fill in the following required fields:\n- "
        ++ String.intercalate "\n- " (missingFieldLabels form))
  else if fieldErrors.length > 0 then
    SubmitOutcome.rejectErrors "Please fix the validation errors shown in red before submitting"
  else SubmitOutcome.proceed form

/-- Only the `proceed` outcome reaches `submitClassification`. -/
def networkCallMade : SubmitOutcome → Bool
  | SubmitOutcome.proceed _ => true
  | _ => false

/-- C4: with any required field empty, submission is rejected with the
aggregated message listing every missing field; otherwise with a
non-empty field-error set it is rejected with the generic message; and
the network call is reached exactly when neither rejection applies. -/
theorem handleSubmitGate_spec (form : FormData) (errs : ErrMap) :
    (missingFieldLabels form ≠ [] →
      handleSubmitGate form errs = SubmitOutcome.rejectMissing
        ("Please fill in the following required fields:\n- "
          ++ String.intercalate "\n- " (missingFieldLabels form)))
    ∧ (missingFieldLabels form = [] → errs ≠ [] →
      handleSubmitGate form errs = SubmitOutcome.rejectErrors
        "Please fix the validation errors shown in red before submitting")
    ∧ (networkCallMade (handleSubmitGate form errs) = true
        ↔ (missingFieldLabels form = [] ∧ errs = [])) := by
  refine ⟨?_, ?_, ?_⟩
  · intro hm
    simp [handleSubmitGate, List.length_pos.mpr hm]
  · intro hm he
    simp [handleSubmitGate, hm, List.length_pos.mpr he]
  · by_cases h1 : missingFieldLabels form = []
    · by_cases h2 : errs = []
      · simp [handleSubmitGate, networkCallMade, h1, h2]
      · have hl2 := List.length_pos.mpr h2
        simp [handleSubmitGate, networkCallMade, h1, h2, hl2]
    · have hl1 := List.length_pos.mpr h1
      simp [handleSubmitGate, networkCallMade, h1, hl1]

/-- Witness for C4: the all-empty initial form misses all three required
fields and is rejected with the aggregated message; no network call. -/
theorem handleSubmitGate_spec_witness :
    handleSubmitGate emptyFormW []
      = SubmitOutcome.rejectMissing
          ("Please fill in the following required fields:\n- "
            ++ String.intercalate "\n- " (missingFieldLabels emptyFormW))
    ∧ missingFieldLabels emptyFormW = ["Speed Min", "Speed Max", "Number of Matches"] :=
  ⟨(handleSubmitGate_spec emptyFormW []).1 (by decide), by decide⟩

/-- The nested `ship_info` block of a raw match; absent fields are `none`,
and a present-but-empty string is distinguished because JS `||` and
truthiness filters treat it as absent. -/
structure ShipInfo where
  name : Option String
  ship_type : Option String
  pages : Option String
  ship_class : Option String
  country : Option String
deriving DecidableEq

/-- `match.ship_info || {}`. -/
def emptyShipInfo : ShipInfo := ⟨none, none, none, none, none⟩

/-- A raw match from the classification service. -/
structure RawMatch where
  ship_info : Option ShipInfo
  similarity_score : ℚ
deriving DecidableEq

/-- The display structure built by `transformMatchesToDisplay`
(Upload.jsx:278-292); `vtype` embeds the `type` field. -/
structure DisplayMatch where
  id : String
  name : String
  vtype : String
  pages : String
  confidence : ℚ
  match_factors : List (String × String)
deriving DecidableEq

/-- JS `v || d` for an optional string: the default is used when the
field is absent or the empty string. -/
def orDefaultStr (v : Option String) (d : String) : String :=
  match v with
  | some s => if s = "" then d else s
  | none => d

/-- The `match_factors` construction: label/value pairs filtered by
`item => item.value` (truthiness). -/
def matchFactors (shipInfo : ShipInfo) : List (String × String) :=
  ([("Class", shipInfo.ship_class), ("Country", shipInfo.country)]
      : List (String × Option String)).filterMap
    (fun p => match p.2 with
      | some v => if v = "" then none else some (p.1, v)
      | none => none)

/-- The per-match arrow function of `transformMatchesToDisplay`. -/
def displayOf (index : ℕ) (m : RawMatch) : DisplayMatch :=
  { id := "vessel-" ++ toString index
    name := orDefaultStr (m.ship_info.getD emptyShipInfo).name "Unknown Vessel"
    vtype := orDefaultStr (m.ship_info.getD emptyShipInfo).ship_type "Unknown Type"
    pages := orDefaultStr (m.ship_info.getD emptyShipInfo).pages "N/A"
    confidence := m.similarity_score / 100
    match_factors := matchFactors (m.ship_info.getD emptyShipInfo) }

/-- JS `parseInt` truncation (toward zero) of a parsed number. -/
def truncQ (q : ℚ) : ℤ := if 0 ≤ q then ⌊q⌋ else ⌈q⌉

/-- `parseInt(formData.top_k) || 10` (Upload.jsx:276): NaN and 0 are
falsy and fall back to 10. -/
def maxResultsOf (top_k : FieldValue) : ℤ :=
  match top_k with
  | FieldValue.num q => if truncQ q = 0 then 10 else truncQ q
  | _ => 10

/-- JS `list.slice(0, n)` for an integer `n` (a negative `n` counts from
the end). -/
def sliceToJS {α : Type} (n : ℤ) (l : List α) : List α :=
  if 0 ≤ n then l.take n.toNat else l.take (l.length - n.natAbs)

/-- `.map((match, index) => ...)` with explicit indices. -/
def mapWithIndex {α β : Type} (f : ℕ → α → β) : ℕ → List α → List β
  | _, [] => []
  | i, a :: as => f i a :: mapWithIndex f (i + 1) as

/-- `transformMatchesToDisplay` (Upload.jsx:272-293). -/
def transformMatchesToDisplay (top_k : FieldValue) (ms : List RawMatch) :
    List DisplayMatch :=
  if ms = [] then []
  else mapWithIndex displayOf 0 (sliceToJS (maxResultsOf top_k) ms)

theorem mapWithIndex_length {α β : Type} (f : ℕ → α → β) (n : ℕ) (l : List α) :
    (mapWithIndex f n l).length = l.length := by
  induction l generalizing n with
  | nil => rfl
  | cons a t ih => simp [mapWithIndex, ih]

theorem mapWithIndex_get {α β : Type} (f : ℕ → α → β) (n : ℕ) (l : List α)
    (i : ℕ) (hi : i < (mapWithIndex f n l).length) (hi2 : i < l.length) :
    (mapWithIndex f n l).get ⟨i, hi⟩ = f (n + i) (l.get ⟨i, hi2⟩) := by
  induction l generalizing n i with
  | nil => exact absurd hi2 (Nat.not_lt_zero i)
  | cons a t ih =>
    cases i with
    | zero => simp [mapWithIndex]
    | succ j =>
      have h1 : j < (mapWithIndex f (n + 1) t).length := by
        simpa [mapWithIndex] using hi
      have h2 : j < t.length := by simpa using hi2
      show (mapWithIndex f (n + 1) t).get ⟨j, h1⟩ = f (n + (j + 1)) (t.get ⟨j, h2⟩)
      rw [ih (n + 1) j h1 h2]
      congr 1
      omega

theorem get_take_eq {α : Type} (l : List α) (n i : ℕ)
    (h1 : i < (l.take n).length) (h2 : i < l.length) :
    (l.take n).get ⟨i, h1⟩ = l.get ⟨i, h2⟩ := by
  induction l generalizing n i with
  | nil => exact absurd h2 (Nat.not_lt_zero i)
  | cons a t ih =>
    cases n with
    | zero => simp at h1
    | succ m =>
      cases i with
      | zero => rfl
      | succ j =>
        have h1m : j < (t.take m).length := by simpa using h1
        have h2t : j < t.length := by simpa using h2
        exact ih m j h1m h2t

theorem maxResultsOf_natCast (k : ℕ) (hk : 1 ≤ k) :
    maxResultsOf (FieldValue.num (k : ℚ)) = (k : ℤ) := by
  have h0 : (0 : ℚ) ≤ (k : ℚ) := Nat.cast_nonneg k
  have hfloor : truncQ (k : ℚ) = (k : ℤ) := by
    simp [truncQ, h0, Int.floor_natCast]
  have hkz : ((k : ℤ) ≠ 0) := by
    exact_mod_cast Nat.one_le_iff_ne_zero.mp hk
  simp [maxResultsOf, hfloor, hkz]

theorem sliceToJS_natCast {α : Type} (k : ℕ) (l : List α) :
    sliceToJS (k : ℤ) l = l.take k := by
  rw [sliceToJS, if_pos (Int.natCast_nonneg k)]
  congr 1

/-- Specification-side view of one label/value factor: kept exactly when
the value is present and truthy. -/
def truthyFactor (label : String) (o : Option String) : List (String × String) :=
  match o with
  | some v => if v = "" then [] else [(label, v)]
  | none => []

theorem matchFactors_eq (si : ShipInfo) :
    matchFactors si
      = truthyFactor "Class" si.ship_class ++ truthyFactor "Country" si.country := by
  cases hc : si.ship_class <;> cases hn : si.country <;>
    simp [matchFactors, truthyFactor, hc, hn] <;> split_ifs <;>
    simp_all [List.filterMap_cons, List.filterMap_nil]

theorem mem_truthyFactor (label : String) (o : Option String) (v : String) :
    ((label, v) ∈ truthyFactor label o) ↔ (o = some v ∧ v ≠ "") := by
  cases o with
  | none => simp [truthyFactor]
  | some c =>
    by_cases hce : c = ""
    · subst hce
      constructor
      · intro hv
        simp [truthyFactor] at hv
      · rintro ⟨h1, h2⟩
        simp only [Option.some.injEq] at h1
        exact absurd h1.symm h2
    · constructor
      · intro hv
        simp [truthyFactor, hce] at hv
        subst hv
        exact ⟨rfl, hce⟩
      · rintro ⟨h1, h2⟩
        simp only [Option.some.injEq] at h1
        subst h1
        simp [truthyFactor, hce]

theorem not_mem_truthyFactor (label label2 : String) (h : label ≠ label2)
    (o : Option String) (v : String) : ¬ ((label, v) ∈ truthyFactor label2 o) := by
  cases o with
  | none => simp [truthyFactor]
  | some c =>
    by_cases hce : c = "" <;> simp [truthyFactor, hce, h]

theorem mem_truthyFactor_label (label : String) (o : Option String)
    (p : String × String) (hp : p ∈ truthyFactor label o) : p.1 = label := by
  cases o with
  | none => simp [truthyFactor] at hp
  | some c =>
    by_cases hce : c = ""
    · simp [truthyFactor, hce] at hp
    · simp [truthyFactor, hce] at hp
      rw [hp]

theorem matchFactors_spec (si : ShipInfo) :
    (∀ v : String, ("Class", v) ∈ matchFactors si ↔ (si.ship_class = some v ∧ v ≠ ""))
    ∧ (∀ v : String, ("Country", v) ∈ matchFactors si ↔ (si.country = some v ∧ v ≠ ""))
    ∧ (∀ p ∈ matchFactors si, p.1 = "Class" ∨ p.1 = "Country") := by
  have hcc : ("Class" : String) ≠ "Country" := by decide
  have hccs : ("Country" : String) ≠ "Class" := by decide
  refine ⟨?_, ?_, ?_⟩
  · intro v
    rw [matchFactors_eq, List.mem_append]
    constructor
    · rintro (hv | hv)
      · exact (mem_truthyFactor "Class" si.ship_class v).mp hv
      · exact absurd hv (not_mem_truthyFactor "Class" "Country" hcc si.country v)
    · intro hv
      exact Or.inl ((mem_truthyFactor "Class" si.ship_class v).mpr hv)
  · intro v
    rw [matchFactors_eq, List.mem_append]
    constructor
    · rintro (hv | hv)
      · exact absurd hv (not_mem_truthyFactor "Country" "Class" hccs si.ship_class v)
      · exact (mem_truthyFactor "Country" si.country v).mp hv
    · intro hv
      exact Or.inr ((mem_truthyFactor "Country" si.country v).mpr hv)
  · intro p hp
    rw [matchFactors_eq, List.mem_append] at hp
    rcases hp with hp | hp
    · exact Or.inl (mem_truthyFactor_label "Class" si.ship_class p hp)
    · exact Or.inr (mem_truthyFactor_label "Country" si.country p hp)

/-- C5: for the requested top-K value K ≥ 1 and a raw match list of
length M, the normalized display list has length min(M, K); element i is
derived from input element i (order preserved); and each display match
carries confidence = similarity_score / 100 and exactly the truthy
Class/Country match factors, with no default substituted. -/
theorem transformMatchesToDisplay_spec (k : ℕ) (hk : 1 ≤ k) (ms : List RawMatch) :
    (transformMatchesToDisplay (FieldValue.num (k : ℚ)) ms).length
        = min ms.length k
    ∧ (∀ (i : ℕ)
        (hi : i < (transformMatchesToDisplay (FieldValue.num (k : ℚ)) ms).length)
        (hi2 : i < ms.length),
        (transformMatchesToDisplay (FieldValue.num (k : ℚ)) ms).get ⟨i, hi⟩
          = displayOf i (ms.get ⟨i, hi2⟩))
    ∧ (∀ (i : ℕ) (m : RawMatch),
        (displayOf i m).confidence = m.similarity_score / 100
        ∧ (∀ v : String, ("Class", v) ∈ (displayOf i m).match_factors
            ↔ ((m.ship_info.getD emptyShipInfo).ship_class = some v ∧ v ≠ ""))
        ∧ (∀ v : String, ("Country", v) ∈ (displayOf i m).match_factors
            ↔ ((m.ship_info.getD emptyShipInfo).country = some v ∧ v ≠ ""))
        ∧ (∀ p ∈ (displayOf i m).match_factors, p.1 = "Class" ∨ p.1 = "Country")) := by
  have hmax : maxResultsOf (FieldValue.num (k : ℚ)) = (k : ℤ) :=
    maxResultsOf_natCast k hk
  have htr : transformMatchesToDisplay (FieldValue.num (k : ℚ)) ms
      = if ms = [] then [] else mapWithIndex displayOf 0 (ms.take k) := by
    rw [transformMatchesToDisplay, hmax, sliceToJS_natCast]
  refine ⟨?_, ?_, ?_⟩
  · by_cases hm : ms = []
    · subst hm
      rw [htr]
      simp
    · rw [htr, if_neg hm, mapWithIndex_length, List.length_take]
      exact Nat.min_comm _ _
  · intro i hi hi2
    by_cases hm : ms = []
    · subst hm; exact absurd hi2 (Nat.not_lt_zero i)
    · have htr2 : transformMatchesToDisplay (FieldValue.num (k : ℚ)) ms
          = mapWithIndex displayOf 0 (ms.take k) := by rw [htr, if_neg hm]
      have h1 : i < (mapWithIndex displayOf 0 (ms.take k)).length := htr2 ▸ hi
      have h2 : i < (ms.take k).length := by
        rw [mapWithIndex_length] at h1; exact h1
      calc (transformMatchesToDisplay (FieldValue.num (k : ℚ)) ms).get ⟨i, hi⟩
          = (mapWithIndex displayOf 0 (ms.take k)).get ⟨i, h1⟩ :=
            List.get_of_eq htr2 ⟨i, hi⟩
        _ = displayOf (0 + i) ((ms.take k).get ⟨i, h2⟩) :=
            mapWithIndex_get displayOf 0 (ms.take k) i h1 h2
        _ = displayOf i (ms.get ⟨i, hi2⟩) := by
            rw [get_take_eq ms k i h2 hi2, Nat.zero_add]
  · intro i m
    obtain ⟨hclass, hcountry, honly⟩ := matchFactors_spec (m.ship_info.getD emptyShipInfo)
    exact ⟨rfl, hclass, hcountry, honly⟩

def si1 : ShipInfo :=
  { name := some "USS Example", ship_type := some "Destroyer", pages := none,
    ship_class := some "ClassA", country := some "" }

def wMatches : List RawMatch :=
  [{ ship_info := some si1, similarity_score := 95 },
   { ship_info := none, similarity_score := 80 },
   { ship_info := none, similarity_score := 70 }]

/-- Witness for C5: three raw matches truncated to top-K = 2. -/
theorem transformMatchesToDisplay_spec_witness :
    (transformMatchesToDisplay (FieldValue.num 2) wMatches).length
        = min wMatches.length 2
    ∧ min wMatches.length 2 = 2 :=
  ⟨by
      have h := (transformMatchesToDisplay_spec 2 (by norm_num) wMatches).1
      exact_mod_cast h,
    by decide⟩

/-- The `{ level, class }` result of `getSimilarityLevel`; `cssClass`
embeds the `class` field. -/
structure SimLevel where
  level : String
  cssClass : String
deriving DecidableEq

/-- `getSimilarityLevel` (Upload.jsx:260-264). -/
def getSimilarityLevel (score : ℚ) : SimLevel :=
  if 80 ≤ score then { level := "High", cssClass := "high" }
  else if 60 ≤ score then { level := "Medium", cssClass := "medium" }
  else { level := "Low", cssClass := "low" }

/-- `calculateMaxSimilarity` (Upload.jsx:251-255): 0 on an empty list,
otherwise `Math.max` over the confidences scaled to percentages. -/
def calculateMaxSimilarity (ms : List DisplayMatch) : ℚ :=
  match ms with
  | [] => 0
  | m :: rest => (rest.map (fun x => x.confidence * 100)).foldl max (m.confidence * 100)

/-- The parsed JSON body of a classify response (section 6 wire contract);
fields that `handleSubmit` guards with `||` are optional. -/
structure ClassificationResponse where
  success : Bool
  error : Option String
  matchList : List RawMatch
  total_matches : Option ℕ
  processing_time : Option ℚ
  report_text : Option String
  classification_id : Option String
  timestamp : Option ℚ
deriving DecidableEq

/-- The claim-relevant core of the `resultsData` object (Upload.jsx:216-232);
the opaque `image_metadata` / `classification_data` pass-through blocks are
omitted as no claim concerns them. -/
structure ResultsData where
  vessels_detected : ℕ
  processing_time : ℚ
  average_similarity : ℚ
  similarity_level : SimLevel
  matchList : List DisplayMatch
deriving DecidableEq

/-- The success-path assembly of `handleSubmit` (Upload.jsx:206-232). -/
def buildResultsData (top_k : FieldValue) (resp : ClassificationResponse) : ResultsData :=
  { vessels_detected := resp.total_matches.getD 0
    processing_time := resp.processing_time.getD 0
    average_similarity :=
      calculateMaxSimilarity (transformMatchesToDisplay top_k resp.matchList)
    similarity_level :=
      getSimilarityLevel
        (calculateMaxSimilarity (transformMatchesToDisplay top_k resp.matchList))
    matchList := transformMatchesToDisplay top_k resp.matchList }

theorem le_foldl_max (l : List ℚ) (a : ℚ) :
    a ≤ l.foldl max a ∧ ∀ x ∈ l, x ≤ l.foldl max a := by
  induction l generalizing a with
  | nil => exact ⟨le_refl a, by simp⟩
  | cons b t ih =>
    obtain ⟨h1, h2⟩ := ih (max a b)
    refine ⟨le_trans (le_max_left a b) h1, ?_⟩
    intro x hx
    rcases List.mem_cons.mp hx with rfl | hx
    · exact le_trans (le_max_right a x) h1
    · exact h2 x hx

theorem foldl_max_mem (l : List ℚ) (a : ℚ) :
    l.foldl max a = a ∨ l.foldl max a ∈ l := by
  induction l generalizing a with
  | nil => exact Or.inl rfl
  | cons b t ih =>
    rcases ih (max a b) with h | h
    · rcases le_total a b with hab | hab
      · refine Or.inr ?_
        have hb : List.foldl max a (b :: t) = b := by
          rw [List.foldl_cons, h, max_eq_right hab]
        rw [hb]
        exact List.mem_cons_self b t
      · refine Or.inl ?_
        rw [List.foldl_cons, h, max_eq_left hab]
    · refine Or.inr ?_
      rw [List.foldl_cons]
      exact List.mem_cons_of_mem b h

theorem calculateMaxSimilarity_is_max (ms : List DisplayMatch) :
    (∀ m ∈ ms, m.confidence * 100 ≤ calculateMaxSimilarity ms)
    ∧ (ms ≠ [] →
        calculateMaxSimilarity ms ∈ ms.map (fun m => m.confidence * 100)) := by
  cases ms with
  | nil => simp
  | cons m rest =>
    constructor
    · intro x hx
      rcases List.mem_cons.mp hx with rfl | hx
      · exact (le_foldl_max (rest.map (fun x => x.confidence * 100))
          (x.confidence * 100)).1
      · exact (le_foldl_max (rest.map (fun x => x.confidence * 100))
          (m.confidence * 100)).2 (x.confidence * 100)
          (List.mem_map_of_mem (fun x => x.confidence * 100) hx)
    · intro _
      rw [List.map_cons]
      rcases foldl_max_mem (rest.map (fun x => x.confidence * 100))
          (m.confidence * 100) with h | h
      · rw [calculateMaxSimilarity, h]
        exact List.mem_cons_self _ _
      · rw [calculateMaxSimilarity]
        exact List.mem_cons_of_mem _ h

theorem getSimilarityLevel_levels (s : ℚ) :
    ((getSimilarityLevel s).level = "Low" ↔ s < 60)
    ∧ ((getSimilarityLevel s).level = "Medium" ↔ (60 ≤ s ∧ s < 80))
    ∧ ((getSimilarityLevel s).level = "High" ↔ 80 ≤ s) := by
  by_cases h80 : 80 ≤ s
  · have hlevel : (getSimilarityLevel s).level = "High" := by
      simp [getSimilarityLevel, h80]
    refine ⟨?_, ?_, ?_⟩ <;> rw [hlevel]
    · constructor
      · intro h; exact absurd h (by decide)
      · intro h; linarith
    · constructor
      · intro h; exact absurd h (by decide)
      · intro h; linarith [h.2]
    · exact ⟨fun _ => h80, fun _ => rfl⟩
  · by_cases h60 : 60 ≤ s
    · have hlevel : (getSimilarityLevel s).level = "Medium" := by
        simp [getSimilarityLevel, h80, h60]
      refine ⟨?_, ?_, ?_⟩ <;> rw [hlevel]
      · constructor
        · intro h; exact absurd h (by decide)
        · intro h; linarith
      · exact ⟨fun _ => ⟨h60, not_le.mp h80⟩, fun _ => rfl⟩
      · constructor
        · intro h; exact absurd h (by decide)
        · intro h; exact absurd h h80
    · have hlevel : (getSimilarityLevel s).level = "Low" := by
        simp [getSimilarityLevel, h80, h60]
      refine ⟨?_, ?_, ?_⟩ <;> rw [hlevel]
      · exact ⟨fun _ => not_le.mp h60, fun _ => rfl⟩
      · constructor
        · intro h; exact absurd h (by decide)
        · intro h; exact absurd h.1 h60
      · constructor
        · intro h; exact absurd h (by decide)
        · intro h; exact absurd h h80

/-- C6: the headline `average_similarity` of a built result is the
maximum of the display matches' confidences scaled to percentages (an
attained upper bound, not an average); the banding is Low below 60,
Medium in [60, 80), High at and above 80; and for an empty,
count-consistent raw match list the result is a valid outcome with
vessels_detected = 0, aggregate 0, and band Low. -/
theorem buildResultsData_spec (top_k : FieldValue) (resp : ClassificationResponse)
    (hcons : resp.total_matches.getD 0 = resp.matchList.length) :
    (∀ m ∈ (buildResultsData top_k resp).matchList,
        m.confidence * 100 ≤ (buildResultsData top_k resp).average_similarity)
    ∧ ((buildResultsData top_k resp).matchList ≠ [] →
        (buildResultsData top_k resp).average_similarity
          ∈ (buildResultsData top_k resp).matchList.map (fun m => m.confidence * 100))
    ∧ ((buildResultsData top_k resp).similarity_level.level = "Low"
        ↔ (buildResultsData top_k resp).average_similarity < 60)
    ∧ ((buildResultsData top_k resp).similarity_level.level = "Medium"
        ↔ (60 ≤ (buildResultsData top_k resp).average_similarity
            ∧ (buildResultsData top_k resp).average_similarity < 80))
    ∧ ((buildResultsData top_k resp).similarity_level.level = "High"
        ↔ 80 ≤ (buildResultsData top_k resp).average_similarity)
    ∧ (resp.matchList = [] →
        (buildResultsData top_k resp).vessels_detected = 0
        ∧ (buildResultsData top_k resp).average_similarity = 0
        ∧ (buildResultsData top_k resp).similarity_level.level = "Low") := by
  obtain ⟨hub, hmem⟩ :=
    calculateMaxSimilarity_is_max (transformMatchesToDisplay top_k resp.matchList)
  obtain ⟨hlow, hmed, hhigh⟩ :=
    getSimilarityLevel_levels
      (calculateMaxSimilarity (transformMatchesToDisplay top_k resp.matchList))
  refine ⟨hub, hmem, hlow, hmed, hhigh, ?_⟩
  intro hempty
  have htr : transformMatchesToDisplay top_k resp.matchList = [] := by
    rw [hempty, transformMatchesToDisplay, if_pos rfl]
  have havg : calculateMaxSimilarity (transformMatchesToDisplay top_k resp.matchList) = 0 := by
    rw [htr]
    rfl
  refine ⟨?_, havg, ?_⟩
  · show resp.total_matches.getD 0 = 0
    rw [hcons, hempty]
    rfl
  · show (getSimilarityLevel
        (calculateMaxSimilarity (transformMatchesToDisplay top_k resp.matchList))).level = "Low"
    rw [havg]
    norm_num [getSimilarityLevel]

def respEmpty : ClassificationResponse :=
  { success := true, error := none, matchList := [], total_matches := some 0,
    processing_time := none, report_text := none, classification_id := none,
    timestamp := none }

/-- Witness for C6: an empty, count-consistent response yields vessel
count 0, aggregate 0, band Low. -/
theorem buildResultsData_spec_witness :
    (buildResultsData (FieldValue.num 5) respEmpty).vessels_detected = 0
    ∧ (buildResultsData (FieldValue.num 5) respEmpty).average_similarity = 0
    ∧ (buildResultsData (FieldValue.num 5) respEmpty).similarity_level.level = "Low" :=
  (buildResultsData_spec (FieldValue.num 5) respEmpty rfl).2.2.2.2.2 rfl

/-- A raw string-valued form (the shape `api.js` and `mockReport.js` see):
field name to raw text, `""` meaning unset. -/
def FormDataRaw : Type := String → String

/-- Abstraction of the outcome of the `fetch` in `submitClassification`:
either a network-level failure (the `TypeError ... fetch` path) or an
HTTP response with a status and parsed JSON body. -/
inductive FetchOutcome where
  | networkError : FetchOutcome
  | response : ℕ → ClassificationResponse → FetchOutcome

/-- `submitClassification` (api.js:17-89) as a function of the fetch
outcome; `Except.error` carries the thrown error message. -/
def submitClassification (formData : Option FormDataRaw) (outcome : FetchOutcome) :
    Except String ClassificationResponse :=
  match formData with
  | none => Except.error "No form data provided"
  | some _ =>
    match outcome with
    | FetchOutcome.networkError =>
      Except.error "Unable to connect to the server. Please check your connection and try again."
    | FetchOutcome.response status body =>
      if 200 ≤ status ∧ status ≤ 299 then
        if body.success then Except.ok body
        else Except.error (orDefaultStr body.error "Classification failed")
      else if status = 400 then
        Except.error (orDefaultStr body.error "Invalid form data or request")
      else if status = 422 then
        Except.error (orDefaultStr body.error "Validation error: Please check your input values")
      else if status = 500 then
        Except.error "Server error occurred while processing the classification"
      else
        Except.error ("Classification failed with status " ++ toString status)

/-- C7: the error mapping of `submitClassification` — 400 and 422 prefer
the server-provided error text with validation-style fallbacks, 500 maps
to the generic server-error message, any other non-2xx maps to
`Classification failed with status N`, a network failure maps to the
connectivity message, and a 2xx body with success = false throws the
body's error text (or a generic fallback). -/
theorem submitClassification_error_mapping (fd : FormDataRaw)
    (body : ClassificationResponse) :
    (submitClassification (some fd) (FetchOutcome.response 400 body)
        = Except.error (orDefaultStr body.error "Invalid form data or request"))
    ∧ (submitClassification (some fd) (FetchOutcome.response 422 body)
        = Except.error (orDefaultStr body.error "Validation error: Please check your input values"))
    ∧ (submitClassification (some fd) (FetchOutcome.response 500 body)
        = Except.error "Server error occurred while processing the classification")
    ∧ (∀ status : ℕ, ¬ (200 ≤ status ∧ status ≤ 299) →
        status ≠ 400 → status ≠ 422 → status ≠ 500 →
        submitClassification (some fd) (FetchOutcome.response status body)
          = Except.error ("Classification failed with status " ++ toString status))
    ∧ (submitClassification (some fd) FetchOutcome.networkError
        = Except.error "Unable to connect to the server. Please check your connection and try again.")
    ∧ (∀ status : ℕ, 200 ≤ status → status ≤ 299 → body.success = false →
        submitClassification (some fd) (FetchOutcome.response status body)
          = Except.error (orDefaultStr body.error "Classification failed")) := by
  refine ⟨?_, ?_, ?_, ?_, rfl, ?_⟩
  · norm_num [submitClassification]
  · norm_num [submitClassification]
  · norm_num [submitClassification]
  · intro status hok h4 h42 h5
    simp [submitClassification, hok, h4, h42, h5]
  · intro status h2 h2' hsf
    have hok : 200 ≤ status ∧ status ≤ 299 := ⟨h2, h2'⟩
    simp [submitClassification, hok, hsf]

def fdRaw0 : FormDataRaw := fun _ => ""

/-- Witness for C7: a 404 response maps to the status-N message and a 500
response to the generic server-error message. -/
theorem submitClassification_error_mapping_witness :
    submitClassification (some fdRaw0) (FetchOutcome.response 404 respEmpty)
      = Except.error ("Classification failed with status " ++ toString (404 : ℕ))
    ∧ submitClassification (some fdRaw0) (FetchOutcome.response 500 respEmpty)
      = Except.error "Server error occurred while processing the classification" :=
  ⟨(submitClassification_error_mapping fdRaw0 respEmpty).2.2.2.1 404
      (by norm_num) (by norm_num) (by norm_num) (by norm_num),
    (submitClassification_error_mapping fdRaw0 respEmpty).2.2.1⟩

/-- The wall-clock readings `generateMockReport` takes: one
`new Date().toISOString()`, one `toLocaleDateString(..)`, and one
`Date.now()` value (milliseconds). -/
structure Clock where
  isoTimestamp : String
  localeDate : String
  nowMillis : ℕ

/-- One entry of the fixed synthetic match set of `mockReport.js`. -/
structure MockMatch where
  ship_name : String
  ship_class : String
  hull_number : String
  country : String
  ship_type : String
  ship_role : String
  length_metres : ℚ
  beam_metres : ℚ
  draught_metres : ℚ
  displacement_full_load_tons : ℚ
  speed_knots : ℚ
  hull_form : String
  hull_shape : String
  bow_shape : String
  confidence : ℚ
  match_score : ℚ
deriving DecidableEq

/-- The `mockMatches` array (mockReport.js:18-109). -/
def mockMatches : List MockMatch :=
  [{ ship_name := "USS Arleigh Burke", ship_class := "Arleigh Burke",
     hull_number := "DDG-51", country := "United States",
     ship_type := "Guided Missile Destroyer", ship_role := "Multi-role",
     length_metres := 155.3, beam_metres := 20.4, draught_metres := 6.3,
     displacement_full_load_tons := 9200, speed_knots := 30,
     hull_form := "Monohull", hull_shape := "Sleek", bow_shape := "Raked",
     confidence := 0.95, match_score := 0.92 },
   { ship_name := "USS John Paul Jones", ship_class := "Arleigh Burke",
     hull_number := "DDG-53", country := "United States",
     ship_type := "Guided Missile Destroyer", ship_role := "AAW",
     length_metres := 154.8, beam_metres := 20.4, draught_metres := 6.3,
     displacement_full_load_tons := 9200, speed_knots := 30,
     hull_form := "Monohull", hull_shape := "Sleek", bow_shape := "Raked",
     confidence := 0.94, match_score := 0.91 },
   { ship_name := "USS Curtis Wilbur", ship_class := "Arleigh Burke",
     hull_number := "DDG-54", country := "United States",
     ship_type := "Guided Missile Destroyer", ship_role := "Multi-role",
     length_metres := 154.7, beam_metres := 20.4, draught_metres := 6.3,
     displacement_full_load_tons := 9200, speed_knots := 30,
     hull_form := "Monohull", hull_shape := "Sleek", bow_shape := "Raked",
     confidence := 0.93, match_score := 0.90 },
   { ship_name := "HMS Daring", ship_class := "Type 45",
     hull_number := "D32", country := "United Kingdom",
     ship_type := "Destroyer", ship_role := "Air Defence Destroyer",
     length_metres := 152.4, beam_metres := 21.2, draught_metres := 5.3,
     displacement_full_load_tons := 8000, speed_knots := 29,
     hull_form := "Monohull", hull_shape := "Sleek", bow_shape := "Raked",
     confidence := 0.87, match_score := 0.85 },
   { ship_name := "HMS Dauntless", ship_class := "Type 45",
     hull_number := "D33", country := "United Kingdom",
     ship_type := "Destroyer", ship_role := "Air Defence Destroyer",
     length_metres := 152.4, beam_metres := 21.2, draught_metres := 5.3,
     displacement_full_load_tons := 8000, speed_knots := 29,
     hull_form := "Monohull", hull_shape := "Sleek", bow_shape := "Raked",
     confidence := 0.86, match_score := 0.84 }]

/-- `'c'.repeat(n)`. -/
def repeatChar (c : Char) (n : ℕ) : String := String.mk (List.replicate n c)

/-- `'='.repeat(80)` (mockReport.js:126). -/
def divider : String := repeatChar '=' 80

/-- `'-'.repeat(80)` (mockReport.js:127). -/
def minorDivider : String := repeatChar '-' 80

/-- `'-'.repeat(40)` (mockReport.js:173). -/
def dash40 : String := repeatChar '-' 40

/-- `s || 'N/A'` on a raw string field. -/
def orNA (s : String) : String := if s = "" then "N/A" else s

/-- JS number-to-string interpolation for a value with at most one
decimal digit (all mock-match dimension and speed values). -/
def qToStr1 (q : ℚ) : String :=
  if round (q * 10) % 10 = 0 then toString (round (q * 10) / 10)
  else toString (round (q * 10) / 10) ++ "." ++ toString (round (q * 10) % 10)

/-- `x.toFixed(1)` for a non-negative value. -/
def toFixed1 (q : ℚ) : String :=
  toString (round (q * 10) / 10) ++ "." ++ toString (round (q * 10) % 10)

/-- `x.toFixed(0)` for a non-negative value. -/
def toFixed0 (q : ℚ) : String := toString (round q)

/-- `[...new Set(l)]` (insertion order keeps first occurrences). -/
def uniqueFirst : List String → List String
  | [] => []
  | a :: rest => a :: uniqueFirst (rest.filter (fun b => b != a))
termination_by l => l.length
decreasing_by
  simp_wf
  exact Nat.lt_succ_of_le (List.length_filter_le _ _)

/-- All-empty fallback entry for `matches[0]` (the source would throw on
an empty list; `generateMockReport` always passes the 5-entry set). -/
def mockMatchDefault : MockMatch :=
  { ship_name := "", ship_class := "", hull_number := "", country := "",
    ship_type := "", ship_role := "", length_metres := 0, beam_metres := 0,
    draught_metres := 0, displacement_full_load_tons := 0, speed_knots := 0,
    hull_form := "", hull_shape := "", bow_shape := "", confidence := 0,
    match_score := 0 }

/-- The per-match `report +=` lines of the `matches.forEach` block
(mockReport.js:171-197), one list entry per `+=`. -/
def matchChunks (index : ℕ) (m : MockMatch) : List String :=
  ["Match #" ++ toString (index + 1) ++ ": " ++ m.ship_name ++ "\n",
   dash40 ++ "\n",
   "  Class:          " ++ m.ship_class ++ "\n",
   "  Hull Number:    " ++ m.hull_number ++ "\n",
   "  Country:        " ++ m.country ++ "\n",
   "  Type/Role:      " ++ m.ship_type ++ " / " ++ m.ship_role ++ "\n",
   "  \n",
   "  Dimensions:\n",
   "    Length:       " ++ qToStr1 m.length_metres ++ "m\n",
   "    Beam:         " ++ qToStr1 m.beam_metres ++ "m\n",
   "    Draught:      " ++ qToStr1 m.draught_metres ++ "m\n",
   "    Displacement: " ++ qToStr1 m.displacement_full_load_tons ++ " tons\n",
   "  \n",
   "  Hull Characteristics:\n",
   "    Hull Form:    " ++ m.hull_form ++ "\n",
   "    Hull Shape:   " ++ m.hull_shape ++ "\n",
   "    Bow Shape:    " ++ m.bow_shape ++ "\n",
   "  \n",
   "  Performance:\n",
   "    Speed:        " ++ qToStr1 m.speed_knots ++ " knots\n",
   "  \n",
   "  Match Metrics:\n",
   "    Confidence:   " ++ toFixed1 (m.confidence * 100) ++ "%\n",
   "    Match Score:  " ++ toFixed1 (m.match_score * 100) ++ "%\n",
   "\n"]

/-- The conditional `Additional Criteria` block (mockReport.js:151-157);
JS string truthiness is non-emptiness. -/
def additionalCriteriaChunks (fd : FormDataRaw) : List String :=
  if fd "ship_type" ≠ "" ∨ fd "ship_role" ≠ "" ∨ fd "country" ≠ "" then
    ["Additional Criteria:\n"]
    ++ (if fd "ship_type" ≠ "" then ["  Ship Type:  " ++ fd "ship_type" ++ "\n"] else [])
    ++ (if fd "ship_role" ≠ "" then ["  Ship Role:  " ++ fd "ship_role" ++ "\n"] else [])
    ++ (if fd "country" ≠ "" then ["  Country:    " ++ fd "country" ++ "\n"] else [])
    ++ ["\n"]
  else []

/-- The confidence-driven `Recommendations` branch (mockReport.js:221-230). -/
def recommendationChunks (ms : List MockMatch) : List String :=
  if (ms.headD mockMatchDefault).confidence > 0.9 then
    ["  - High confidence match identified. The vessel is very likely a\n",
     "    " ++ (ms.headD mockMatchDefault).ship_class ++ "-class "
       ++ (ms.headD mockMatchDefault).ship_type ++ ".\n"]
  else if (ms.headD mockMatchDefault).confidence > 0.8 then
    ["  - Good confidence match identified. Further analysis recommended\n",
     "    to confirm vessel classification.\n"]
  else
    ["  - Multiple potential matches with similar confidence levels.\n",
     "    Additional data points recommended for precise identification.\n"]

/-- All `report +=` chunks of `generateReportText` between the
`Report ID` line and the final `Timestamp` line (mockReport.js:135-275),
in source order; this segment reads no clock. -/
def reportChunksCore (fd : FormDataRaw) (ms : List MockMatch) : List String :=
  ["Classification System: Warship Identification Database v1.0\n\n",
   divider ++ "\n",
   "SECTION 1: QUERY PARAMETERS\n",
   divider ++ "\n\n",
   "Physical Dimensions:\n",
   "  Length:     " ++ orNA (fd "length_metres_min") ++ "m - "
     ++ orNA (fd "length_metres_max") ++ "m\n",
   "  Beam:       " ++ orNA (fd "beam_metres_min") ++ "m - "
     ++ orNA (fd "beam_metres_max") ++ "m\n",
   "  Draught:    " ++ orNA (fd "draught_metres_min") ++ "m - "
     ++ orNA (fd "draught_metres_max") ++ "m\n\n",
   "Hull Characteristics:\n",
   "  Hull Form:  " ++ orNA (fd "hull_form") ++ "\n",
   "  Hull Shape: " ++ orNA (fd "hull_shape") ++ "\n",
   "  Bow Shape:  " ++ orNA (fd "bow_shape") ++ "\n\n"]
  ++ additionalCriteriaChunks fd
  ++ [divider ++ "\n",
   "SECTION 2: CLASSIFICATION RESULTS\n",
   divider ++ "\n\n",
   "Total Matches Found: " ++ toString ms.length ++ "\n",
   "Confidence Threshold: 80%\n",
   "Search Method: Multi-parameter matching with weighted scoring\n\n",
   minorDivider ++ "\n",
   "TOP MATCHING VESSELS\n",
   minorDivider ++ "\n\n"]
  ++ (mapWithIndex matchChunks 0 ms).flatten
  ++ [divider ++ "\n",
   "SECTION 3: ANALYSIS SUMMARY\n",
   divider ++ "\n\n",
   "Classification Analysis:\n",
   "  The query parameters provided match " ++ toString ms.length
     ++ " vessels in the database.\n",
   "  The top match, " ++ (ms.headD mockMatchDefault).ship_name ++ ", shows a "
     ++ toFixed1 ((ms.headD mockMatchDefault).confidence * 100)
     ++ "% confidence level.\n\n",
   "Key Findings:\n",
   "  - " ++ toString (uniqueFirst (ms.map (fun m => m.ship_class))).length
     ++ " distinct ship class(es) identified: "
     ++ String.intercalate ", " (uniqueFirst (ms.map (fun m => m.ship_class))) ++ "\n",
   "  - " ++ toString (uniqueFirst (ms.map (fun m => m.country))).length
     ++ " nation(s) represented: "
     ++ String.intercalate ", " (uniqueFirst (ms.map (fun m => m.country))) ++ "\n",
   "  - Average length of matches: "
     ++ toFixed1 ((ms.map (fun m => m.length_metres)).sum / (ms.length : ℚ)) ++ "m\n",
   "  - Average displacement: "
     ++ toFixed0 ((ms.map (fun m => m.displacement_full_load_tons)).sum / (ms.length : ℚ))
     ++ " tons\n\n",
   "Recommendations:\n"]
  ++ recommendationChunks ms
  ++ ["\n",
   divider ++ "\n",
   "SECTION 4: METHODOLOGY\n",
   divider ++ "\n\n",
   "Classification Methodology:\n",
   "  This report was generated using a multi-parameter matching algorithm\n",
   "  that compares input characteristics against a comprehensive database\n",
   "  of warship specifications.\n\n",
   "Scoring System:\n",
   "  - Dimensional Accuracy:  40% weight\n",
   "  - Hull Characteristics:  30% weight\n",
   "  - Type/Role Matching:    20% weight\n",
   "  - Additional Features:   10% weight\n\n",
   "Database Coverage:\n",
   "  - Total vessels in database: ~20,000\n",
   "  - Countries represented: 150+\n",
   "  - Ship types: 293\n",
   "  - Date range: 1940-2024\n\n",
   divider ++ "\n",
   "SECTION 5: LIMITATIONS AND DISCLAIMERS\n",
   divider ++ "\n\n",
   "Limitations:\n",
   "  - Classification accuracy depends on the completeness and accuracy\n",
   "    of input parameters\n",
   "  - Database may not include all variants or recent modifications\n",
   "  - Visual observations may be subject to measurement error\n",
   "  - Similar vessel designs may result in multiple high-confidence matches\n\n",
   "Disclaimer:\n",
   "  This report is generated for informational purposes only. The\n",
   "  classification results should be used in conjunction with other\n",
   "  intelligence sources and verified through appropriate channels.\n\n",
   divider ++ "\n",
   "END OF REPORT\n",
   divider ++ "\n\n",
   "Generated by: Warship Classification System\n",
   "Report Version: 1.0\n"]

/-- All `report +=` chunks of `generateReportText` (mockReport.js:125-278)
in order: the first three header lines, the clock-bearing `Report Date`
and `Report ID` lines, the clock-free core, and the final clock-bearing
`Timestamp` line. -/
def generateReportTextChunks (fd : FormDataRaw) (ms : List MockMatch)
    (clock : Clock) : List String :=
  [divider ++ "\n",
   "                    WARSHIP CLASSIFICATION REPORT\n",
   divider ++ "\n\n",
   "Report Date: " ++ clock.localeDate ++ "\n",
   "Report ID: MOCK-" ++ toString clock.nowMillis ++ "\n"]
  ++ reportChunksCore fd ms
  ++ ["Timestamp: " ++ clock.isoTimestamp ++ "\n"]

/-- `generateReportText` (mockReport.js:125-279): the concatenation of
its `+=` chunks. -/
def generateReportText (fd : FormDataRaw) (ms : List MockMatch)
    (clock : Clock) : String :=
  String.join (generateReportTextChunks fd ms clock)

/-- The object returned by `generateMockReport` (mockReport.js:114-122). -/
structure MockResult where
  success : Bool
  report_id : String
  timestamp : String
  total_matches : ℕ
  matchList : List MockMatch
  query_params : FormDataRaw
  report_text : String

/-- `generateMockReport` (mockReport.js:9-123). -/
def generateMockReport (fd : FormDataRaw) (clock : Clock) : MockResult :=
  { success := true
    report_id := "MOCK-" ++ toString clock.nowMillis
    timestamp := clock.isoTimestamp
    total_matches := mockMatches.length
    matchList := mockMatches
    query_params := fd
    report_text := generateReportText fd mockMatches clock }

/-- A classification result as the offline-fallback variant sees it:
either the remote service's response or a synthesized offline report. -/
inductive ClassifyOutcome where
  | server : ClassificationResponse → ClassifyOutcome
  | offline : MockResult → ClassifyOutcome

/-- Modelled from the spec: the offline-fallback dispatch of the fallback
deployment variant is not present under `src/` (only the Report Generator
`generateMockReport` is).  Per spec section 4.4 item 3, on `Failed`
specifically due to an unreachable remote service (the network-error
outcome), a result is synthesized via the offline Report Generator;
every other failure — 400/422/500 or a success-false payload — must
propagate to the user unchanged. -/
def submitWithFallback (fd : FormDataRaw) (outcome : FetchOutcome) (clock : Clock) :
    Except String ClassifyOutcome :=
  match outcome with
  | FetchOutcome.networkError =>
    Except.ok (ClassifyOutcome.offline (generateMockReport fd clock))
  | FetchOutcome.response s b =>
    match submitClassification (some fd) (FetchOutcome.response s b) with
    | Except.ok d => Except.ok (ClassifyOutcome.server d)
    | Except.error m => Except.error m

/-- C8: with the offline fallback enabled, a network-level failure still
produces a classification result, sourced from the bundled synthetic set,
with success true and exactly 5 matches; and every response-based failure
(400/422/500 or a success-false body) propagates unchanged, never
absorbed by the fallback. -/
theorem submitWithFallback_spec (fd : FormDataRaw) (clock : Clock) :
    (submitWithFallback fd FetchOutcome.networkError clock
        = Except.ok (ClassifyOutcome.offline (generateMockReport fd clock))
      ∧ (generateMockReport fd clock).success = true
      ∧ (generateMockReport fd clock).matchList.length = 5)
    ∧ (∀ (s : ℕ) (b : ClassificationResponse) (m : String),
        submitClassification (some fd) (FetchOutcome.response s b) = Except.error m →
        submitWithFallback fd (FetchOutcome.response s b) clock = Except.error m) := by
  refine ⟨⟨rfl, rfl, rfl⟩, ?_⟩
  intro s b m hm
  simp [submitWithFallback, hm]

def clock0 : Clock :=
  { isoTimestamp := "1970-01-01T00:00:00.000Z",
    localeDate := "January 1, 1970", nowMillis := 0 }

/-- Witness for C8: a 500 rejection propagates past the fallback, while
the synthetic set has 5 entries. -/
theorem submitWithFallback_spec_witness :
    submitWithFallback fdRaw0 (FetchOutcome.response 500 respEmpty) clock0
      = Except.error "Server error occurred while processing the classification"
    ∧ (generateMockReport fdRaw0 clock0).matchList.length = 5 :=
  ⟨(submitWithFallback_spec fdRaw0 clock0).2 500 respEmpty
      "Server error occurred while processing the classification" rfl,
    (submitWithFallback_spec fdRaw0 clock0).1.2.2⟩

theorem generateReportTextChunks_len (fd : FormDataRaw) (c : Clock) :
    (generateReportTextChunks fd mockMatches c).length
      = (reportChunksCore fd mockMatches).length + 6 := by
  simp [generateReportTextChunks]

/-- C9: for a fixed input form, the report chunk sequences of two
invocations have the same length and agree at every position except the
`Report Date` chunk (index 3), the `Report ID` chunk (index 4), and the
final `Timestamp` chunk; and the report text of `generateMockReport` is
exactly the concatenation of those chunks, so two report bodies differ
only in the timestamp/id metadata fields. -/
theorem generateReportText_clock_independent (fd : FormDataRaw) (c1 c2 : Clock) :
    (generateReportTextChunks fd mockMatches c1).length
        = (generateReportTextChunks fd mockMatches c2).length
    ∧ (∀ i : ℕ, i ≠ 3 → i ≠ 4 →
        i + 1 ≠ (generateReportTextChunks fd mockMatches c1).length →
        (generateReportTextChunks fd mockMatches c1).get? i
          = (generateReportTextChunks fd mockMatches c2).get? i)
    ∧ (generateMockReport fd c1).report_text
        = String.join (generateReportTextChunks fd mockMatches c1) := by
  have hjoin : (generateMockReport fd c1).report_text
      = String.join (generateReportTextChunks fd mockMatches c1) := by
    dsimp only [generateMockReport, generateReportText]
  refine ⟨by rw [generateReportTextChunks_len fd c1, generateReportTextChunks_len fd c2],
    ?_, hjoin⟩
  intro i h3 h4 hlast
  by_cases hi : i < 5
  · interval_cases i
    · rfl
    · rfl
    · rfl
    · exact absurd rfl h3
    · exact absurd rfl h4
  · push_neg at hi
    have hpre : ∀ c : Clock,
        (generateReportTextChunks fd mockMatches c).get? i
          = (reportChunksCore fd mockMatches
              ++ ["Timestamp: " ++ c.isoTimestamp ++ "\n"]).get? (i - 5) := by
      intro c
      rw [generateReportTextChunks, List.append_assoc]
      rw [List.get?_append_right (by simpa using hi)]
      simp
    rw [hpre c1, hpre c2]
    by_cases hic : i - 5 < (reportChunksCore fd mockMatches).length
    · rw [List.get?_append hic, List.get?_append hic]
    · have hge : (reportChunksCore fd mockMatches).length ≤ i - 5 := not_lt.mp hic
      rw [List.get?_append_right hge, List.get?_append_right hge]
      have h1len := generateReportTextChunks_len fd c1
      have hbig : 1 ≤ i - 5 - (reportChunksCore fd mockMatches).length := by
        rw [h1len] at hlast
        omega
      rw [List.get?_eq_none.mpr (by simpa using hbig),
        List.get?_eq_none.mpr (by simpa using hbig)]

def clock1 : Clock :=
  { isoTimestamp := "2025-06-01T12:00:00.000Z",
    localeDate := "June 1, 2025", nowMillis := 1748779200000 }

/-- Witness for C9: the first chunk of two differently-clocked reports
coincides. -/
theorem generateReportText_clock_independent_witness :
    (generateReportTextChunks fdRaw0 mockMatches clock0).get? 0
      = (generateReportTextChunks fdRaw0 mockMatches clock1).get? 0 :=
  (generateReportText_clock_independent fdRaw0 clock0 clock1).2.1 0
    (by decide) (by decide)
    (by rw [generateReportTextChunks_len fdRaw0 clock0]; omega)

/-- `AUTOCOMPLETE_DATA.countries` (uploadConstants.js:273-306). -/
def AUTOCOMPLETE_countries : List String :=
  ["Afghanistan", "Albania", "Algeria", "Andorra", "Angola", "Antigua and Barbuda",
   "Argentina", "Armenia", "Australia", "Austria", "Azerbaijan", "Bahamas", "Bahrain",
   "Bangladesh", "Barbados", "Belarus", "Belgium", "Belize", "Benin", "Bhutan",
   "Bolivia", "Bosnia and Herzegovina", "Botswana", "Brazil", "Brunei", "Bulgaria",
   "Burkina Faso", "Burundi", "Cabo Verde", "Cambodia", "Cameroon", "Canada",
   "Central African Republic", "Chad", "Chile", "China", "Colombia", "Comoros",
   "Congo", "Costa Rica", "Croatia", "Cuba", "Cyprus", "Czech Republic",
   "Democratic Republic of the Congo", "Denmark", "Djibouti", "Dominica",
   "Dominican Republic", "East Timor", "Ecuador", "Egypt", "El Salvador",
   "Equatorial Guinea", "Eritrea", "Estonia", "Eswatini", "Ethiopia", "Fiji",
   "Finland", "France", "Gabon", "Gambia", "Georgia", "Germany", "Ghana",
   "Greece", "Grenada", "Guatemala", "Guinea", "Guinea-Bissau", "Guyana", "Haiti",
   "Honduras", "Hungary", "Iceland", "India", "Indonesia", "Iran", "Iraq",
   "Ireland", "Israel", "Italy", "Jamaica", "Japan", "Jordan", "Kazakhstan",
   "Kenya", "Kiribati", "Kosovo", "Kuwait", "Kyrgyzstan", "Laos", "Latvia",
   "Lebanon", "Lesotho", "Liberia", "Libya", "Liechtenstein", "Lithuania",
   "Luxembourg", "Madagascar", "Malawi", "Malaysia", "Maldives", "Mali", "Malta",
   "Marshall Islands", "Mauritania", "Mauritius", "Mexico", "Micronesia", "Moldova",
   "Monaco", "Mongolia", "Montenegro", "Morocco", "Mozambique", "Myanmar", "Namibia",
   "Nauru", "Nepal", "Netherlands", "New Zealand", "Nicaragua", "Niger", "Nigeria",
   "North Korea", "North Macedonia", "Norway", "Oman", "Pakistan", "Palau",
   "Palestine", "Panama", "Papua New Guinea", "Paraguay", "Peru", "Philippines",
   "Poland", "Portugal", "Qatar", "Romania", "Russia", "Rwanda", "Saint Kitts and Nevis",
   "Saint Lucia", "Saint Vincent and the Grenadines", "Samoa", "San Marino",
   "Sao Tome and Principe", "Saudi Arabia", "Senegal", "Serbia", "Seychelles",
   "Sierra Leone", "Singapore", "Slovakia", "Slovenia", "Solomon Islands", "Somalia",
   "South Africa", "South Korea", "South Sudan", "Spain", "Sri Lanka", "Sudan",
   "Suriname", "Sweden", "Switzerland", "Syria", "Taiwan", "Tajikistan", "Tanzania",
   "Thailand", "Togo", "Tonga", "Trinidad and Tobago", "Tunisia", "Turkey",
   "Turkmenistan", "Tuvalu", "Uganda", "Ukraine", "United Arab Emirates",
   "United Kingdom", "United States", "Uruguay", "Uzbekistan", "Vanuatu",
   "Vatican City", "Venezuela", "Vietnam", "Yemen", "Zambia", "Zimbabwe"]

/-- `AUTOCOMPLETE_DATA.ports` (uploadConstants.js:307-312). -/
def AUTOCOMPLETE_ports : List String :=
  ["Norfolk", "San Diego", "Pearl Harbor", "Portsmouth", "Yokosuka",
   "Sasebo", "Toulon", "Brest", "Kiel", "Wilhelmshaven", "La Spezia",
   "Taranto", "Halifax", "Esquimalt", "Sydney", "Devonport", "Faslane",
   "Severomorsk", "Vladivostok", "Qingdao", "Shanghai", "Mumbai", "Karachi"]

def charsHasPref : List Char → List Char → Bool
  | [], _ => true
  | _ :: _, [] => false
  | a :: as, b :: bs => a == b && charsHasPref as bs

def charsHasSub : List Char → List Char → Bool
  | needle, [] => charsHasPref needle []
  | needle, b :: t => charsHasPref needle (b :: t) || charsHasSub needle t

/-- `s.toLowerCase()`: character-wise lowering over the string's
characters (the List-Char form of `String.toLower`, kept
kernel-reducible). -/
def strToLower (s : String) : String := String.mk (s.data.map Char.toLower)

/-- JS `hay.includes(needle)` (substring containment). -/
def strIncludes (hay needle : String) : Bool := charsHasSub needle.data hay.data

/-- The two per-field autocomplete state objects of `useAutocomplete`
(useAutocomplete.js:6-14), as total maps over field names. -/
structure SuggestState where
  suggestions : String → List String
  showSuggestions : String → Bool

/-- `handleAutocomplete` (useAutocomplete.js:16-33): filter the field's
catalog case-insensitively, store the filtered list, set the field's
panel visibility to `value.length > 0`, and return the filtered list. -/
def handleAutocomplete (field value : String) (st : SuggestState) :
    List String × SuggestState :=
  let filtered :=
    if field = "country" then
      AUTOCOMPLETE_countries.filter (fun c => strIncludes (strToLower c) (strToLower value))
    else if field = "base_port" then
      AUTOCOMPLETE_ports.filter (fun p => strIncludes (strToLower p) (strToLower value))
    else []
  (filtered,
   { suggestions := fun g => if g = field then filtered else st.suggestions g
     showSuggestions := fun g =>
       if g = field then decide (0 < value.length) else st.showSuggestions g })

/-- The catalog an autocomplete field filters against. -/
def catalogOf (field : String) : List String :=
  if field = "country" then AUTOCOMPLETE_countries
  else if field = "base_port" then AUTOCOMPLETE_ports
  else []

theorem String_length_pos_iff (s : String) : 0 < s.length ↔ s ≠ "" := by
  cases s with
  | mk data =>
    cases data with
    | nil => simp [String.length]
    | cons c cs =>
      constructor
      · intro _ he
        have hd : (String.mk (c :: cs)).data = ("" : String).data :=
          congrArg String.data he
        simp at hd
      · intro _
        simp [String.length]

/-- C10: for each autocomplete field, `handleAutocomplete` returns
exactly the entries of the field's own catalog containing the input as a
case-insensitive substring, stores that list for the field, sets the
field's panel visibility to true iff the input is non-empty, leaves every
other field's suggestion state unchanged, and the two fields' catalogs
are distinct. -/
theorem handleAutocomplete_spec (field value : String) (st : SuggestState)
    (hfield : field = "country" ∨ field = "base_port") :
    (handleAutocomplete field value st).1
        = (catalogOf field).filter (fun c => strIncludes (strToLower c) (strToLower value))
    ∧ (handleAutocomplete field value st).2.suggestions field
        = (handleAutocomplete field value st).1
    ∧ ((handleAutocomplete field value st).2.showSuggestions field = true
        ↔ value ≠ "")
    ∧ (∀ g, g ≠ field →
        (handleAutocomplete field value st).2.suggestions g = st.suggestions g
        ∧ (handleAutocomplete field value st).2.showSuggestions g = st.showSuggestions g)
    ∧ catalogOf "country" ≠ catalogOf "base_port" := by
  have hcat : catalogOf "country" ≠ catalogOf "base_port" := by decide
  rcases hfield with rfl | rfl <;>
    refine ⟨by simp [handleAutocomplete, catalogOf],
      by simp [handleAutocomplete],
      by simp [handleAutocomplete, String_length_pos_iff],
      ?_, hcat⟩ <;>
    · intro g hg
      exact ⟨by simp [handleAutocomplete, hg], by simp [handleAutocomplete, hg]⟩

def suggestState0 : SuggestState :=
  { suggestions := fun _ => [], showSuggestions := fun _ => false }

/-- Witness for C10: filtering the country catalog with `Zimb` yields
exactly `Zimbabwe` and shows the panel. -/
theorem handleAutocomplete_spec_witness :
    (handleAutocomplete "country" "Zimb" suggestState0).1 = ["Zimbabwe"]
    ∧ ((handleAutocomplete "country" "Zimb" suggestState0).2.showSuggestions "country" = true
        ↔ ("Zimb" : String) ≠ "") :=
  ⟨((handleAutocomplete_spec "country" "Zimb" suggestState0 (Or.inl rfl)).1).trans
      (by decide),
    (handleAutocomplete_spec "country" "Zimb" suggestState0 (Or.inl rfl)).2.2.1⟩
